import Mathlib

/-
Verification of the grocery-store point-of-sale application.

The application is a set of page-level view-controllers that mutate rows of a
remote relational store.  We embed the relevant page logic shallowly:

* money amounts (JS numbers used for prices, subtotals, cash) are rationals;
* quantities and stock counts are integers (the code can write negative
  stock values, so `Int` rather than `Nat`);
* timestamps (ISO strings compared by the backend's range predicates) are
  integers;
* each remote call either succeeds or fails; failure is injected through an
  explicit environment, mirroring the `if (error) throw error` pattern of the
  source.  The sequence of successful writes is recorded as a trace.
-/

namespace GroceryPOS

/-! ## Cart accumulator (POS page)

Embeds the `Product`/`CartItem` interfaces and the `addToCart`,
`removeFromCart`, `updateQuantity` handlers and `total` derivation of the
POS page. -/

namespace POSPage

structure Product where
  id : String
  name : String
  price : ℚ
  sku : String
  stock_quantity : Int
  category : String
  deriving Repr, DecidableEq

structure CartItem extends Product where
  quantity : Int
  subtotal : ℚ
  deriving Repr, DecidableEq

/-- Handler `addToCart`: if the product is already in the cart, bump its quantity and
recompute the subtotal from the entry's own price; otherwise append a fresh
entry with quantity one. -/
def addToCart (cart : List CartItem) (product : Product) : List CartItem :=
  match cart.find? (fun item => item.id == product.id) with
  | some _ =>
      cart.map (fun item =>
        if item.id == product.id then
          { item with quantity := item.quantity + 1,
                      subtotal := ((item.quantity + 1 : Int) : ℚ) * item.price }
        else item)
  | none => cart ++ [{ toProduct := product, quantity := 1, subtotal := product.price }]

/-- Handler `removeFromCart`: drop the entry with the given product id. -/
def removeFromCart (cart : List CartItem) (productId : String) : List CartItem :=
  cart.filter (fun item => !(item.id == productId))

/-- Handler `updateQuantity`: adjust the entry's quantity by `delta`, clamped below at
one, and recompute its subtotal. -/
def updateQuantity (cart : List CartItem) (productId : String) (delta : Int) :
    List CartItem :=
  cart.map (fun item =>
    if item.id == productId then
      let newQuantity := max 1 (item.quantity + delta)
      { item with quantity := newQuantity,
                  subtotal := ((newQuantity : Int) : ℚ) * item.price }
    else item)

/-- Derivation `total`: `cart.reduce((sum, item) => sum + item.subtotal, 0)`. -/
def cartTotal (cart : List CartItem) : ℚ :=
  cart.foldl (fun sum item => sum + item.subtotal) 0

/-- A user-level cart operation. -/
inductive CartOp where
  | add (product : Product)
  | remove (productId : String)
  | setQuantity (productId : String) (delta : Int)
  deriving Repr

def applyOp (cart : List CartItem) : CartOp → List CartItem
  | .add p => addToCart cart p
  | .remove pid => removeFromCart cart pid
  | .setQuantity pid d => updateQuantity cart pid d

/-- Run a sequence of cart operations starting from the empty cart. -/
def applyOps (ops : List CartOp) : List CartItem :=
  ops.foldl applyOp []

/-- The cart invariant: every entry's stored subtotal is its quantity times
its unit price. -/
def SubtotalInv (cart : List CartItem) : Prop :=
  ∀ item ∈ cart, item.subtotal = (item.quantity : ℚ) * item.price

end POSPage

/-! ## Checkout committer (`completeSale`)

Embeds the POS page variant whose product price field is `Harga`.  The
database rows touched by checkout are the `sales`, `sale_items` and
`products` tables; for products only the columns read and written by
checkout (`id`, `stock_quantity`) are modelled — the update sets only the
`stock_quantity` column of the matching row.  Remote-call failures are
injected through `Env`; on a failure the source does `throw`, landing in the
`catch` block which shows the error and returns, so the embedded function
stops at the failing step and reports the error, keeping all earlier
writes. -/

namespace Checkout

structure CartItem where
  id : String
  name : String
  Harga : ℚ
  sku : String
  stock_quantity : Int
  category : String
  quantity : Int
  subtotal : ℚ
  deriving Repr, DecidableEq

structure ProductRow where
  id : String
  stock_quantity : Int
  deriving Repr, DecidableEq

structure Sale where
  id : String
  cashier_id : String
  total_amount : ℚ
  payment_method : String
  status : String
  deriving Repr, DecidableEq

structure SaleItemRow where
  sale_id : String
  product_id : String
  quantity : Int
  unit_price : ℚ
  subtotal : ℚ
  deriving Repr, DecidableEq

structure DB where
  products : List ProductRow
  sales : List Sale
  sale_items : List SaleItemRow
  deriving Repr, DecidableEq

/-- A successful write issued to the backend during checkout. -/
inductive NetOp where
  | insertSale (sale : Sale)
  | insertSaleItems (items : List SaleItemRow)
  | updateStock (productId : String) (newStock : Int)
  deriving Repr, DecidableEq

inductive CommitError where
  | notLoggedIn
  | saleInsertFailed
  | itemsInsertFailed
  | stockUpdateFailed (productId : String)
  deriving Repr, DecidableEq

/-- The environment of one invocation: the authenticated user (if any), the
identifier the backend generates for the inserted sale, and which remote
calls fail. -/
structure Env where
  user : Option String
  newSaleId : String
  saleInsertFails : Bool
  itemsInsertFails : Bool
  stockUpdateFails : String → Bool

structure CommitResult where
  db : DB
  ops : List NetOp
  error : Option CommitError
  deriving Repr

/-- The stock write: update the `stock_quantity` column of the product row whose id matches. -/
def dbUpdateStock (db : DB) (pid : String) (v : Int) : DB :=
  { db with products := db.products.map (fun p =>
      if p.id == pid then { p with stock_quantity := v } else p) }

/-- The `for (const item of cart)` stock-update loop: each iteration writes
`item.stock_quantity - item.quantity`; an error aborts the loop. -/
def stockUpdatesLoop (env : Env) (db : DB) (acc : List NetOp) :
    List CartItem → CommitResult
  | [] => ⟨db, acc, none⟩
  | item :: rest =>
      if env.stockUpdateFails item.id then
        ⟨db, acc, some (.stockUpdateFailed item.id)⟩
      else
        stockUpdatesLoop env
          (dbUpdateStock db item.id (item.stock_quantity - item.quantity))
          (acc ++ [.updateStock item.id (item.stock_quantity - item.quantity)])
          rest

/-- The cart total: `cart.reduce((sum, item) => sum + item.subtotal, 0)`. -/
def checkoutTotal (cart : List CartItem) : ℚ :=
  cart.foldl (fun sum item => sum + item.subtotal) 0

/-- The rows built for the `sale_items` insert: one per cart line,
referencing the new sale's identifier. -/
def checkoutSaleItems (saleId : String) (cart : List CartItem) : List SaleItemRow :=
  cart.map (fun item =>
    SaleItemRow.mk saleId item.id item.quantity item.Harga item.subtotal)

/-- Handler `completeSale`: guard on the empty cart, fetch the user, compute the
total, insert the sale, insert one sale item per cart line, then run the
per-line stock updates. -/
def completeSale (env : Env) (cart : List CartItem) (db : DB) : CommitResult :=
  if cart.length = 0 then ⟨db, [], none⟩
  else
    match env.user with
    | none => ⟨db, [], some .notLoggedIn⟩
    | some uid =>
        if env.saleInsertFails then ⟨db, [], some .saleInsertFailed⟩
        else
          let sale : Sale := ⟨env.newSaleId, uid, checkoutTotal cart, "cash", "completed"⟩
          let db1 := { db with sales := db.sales ++ [sale] }
          let saleItems := checkoutSaleItems env.newSaleId cart
          if env.itemsInsertFails then ⟨db1, [.insertSale sale], some .itemsInsertFailed⟩
          else
            let db2 := { db1 with sale_items := db1.sale_items ++ saleItems }
            stockUpdatesLoop env db2 [.insertSale sale, .insertSaleItems saleItems] cart

/-- Modelled from the spec: the checkout commit exactly as §4.2 lists its
steps — user lookup, sale insert, sale-item insert, stock updates — with no
internal empty-cart guard (the spec asserts the empty-cart case is prevented
only by the caller disabling the action).  Used solely to compare against
`completeSale`, which does guard internally. -/
def completeSaleNoGuard (env : Env) (cart : List CartItem) (db : DB) : CommitResult :=
  match env.user with
  | none => ⟨db, [], some .notLoggedIn⟩
  | some uid =>
      if env.saleInsertFails then ⟨db, [], some .saleInsertFailed⟩
      else
        let sale : Sale := ⟨env.newSaleId, uid, checkoutTotal cart, "cash", "completed"⟩
        let db1 := { db with sales := db.sales ++ [sale] }
        let saleItems := checkoutSaleItems env.newSaleId cart
        if env.itemsInsertFails then ⟨db1, [.insertSale sale], some .itemsInsertFailed⟩
        else
          let db2 := { db1 with sale_items := db1.sale_items ++ saleItems }
          stockUpdatesLoop env db2 [.insertSale sale, .insertSaleItems saleItems] cart

/-- The database after applying the stock update of each listed cart line in
order. -/
def applyStockUpdates (db : DB) (items : List CartItem) : DB :=
  items.foldl (fun d item =>
    dbUpdateStock d item.id (item.stock_quantity - item.quantity)) db

/-- The successful-write trace of the stock-update loop over `items`. -/
def stockOps (items : List CartItem) : List NetOp :=
  items.map (fun item => .updateStock item.id (item.stock_quantity - item.quantity))

end Checkout

/-! ## Shift ledger (Shifts page)

Embeds `startShift` and `endShift`.  The numeric text inputs go through
`parseFloat`; that parse is modelled as `Option ℚ` (`none` for NaN).
Timestamps are integers; the backend's `gte`/`lte` range predicates on
`created_at` become the corresponding comparisons. -/

namespace Shifts

structure Shift where
  id : String
  cashier_id : String
  start_time : Int
  end_time : Option Int
  starting_cash : ℚ
  ending_cash : Option ℚ
  total_sales : Option ℚ
  status : String
  notes : Option String
  deriving Repr, DecidableEq

/-- A row of the `sales` table as read by `endShift` (`created_at` plus the
selected `total_amount` column). -/
structure SaleRow where
  created_at : Int
  total_amount : ℚ
  deriving Repr, DecidableEq

inductive StartShiftOutcome where
  | invalidAmount
  | notLoggedIn
  | insertFailed
  | started (shift : Shift)
  deriving Repr, DecidableEq

/-- Handler `startShift`: rejects a NaN or negative starting-cash amount before
anything else runs, then requires a user, then inserts an open Shift stamped
with the current time.  Returns the outcome together with the shifts table
after the call. -/
def startShift (startingCash : Option ℚ) (user : Option String)
    (now : Int) (newId : String) (insertFails : Bool)
    (shifts : List Shift) : StartShiftOutcome × List Shift :=
  match startingCash with
  | none => (.invalidAmount, shifts)
  | some cashAmount =>
      if cashAmount < 0 then (.invalidAmount, shifts)
      else
        match user with
        | none => (.notLoggedIn, shifts)
        | some uid =>
            if insertFails then (.insertFailed, shifts)
            else
              let newShift : Shift :=
                ⟨newId, uid, now, none, cashAmount, none, none, "open", none⟩
              (.started newShift, shifts ++ [newShift])

inductive EndShiftOutcome where
  | noActiveShift
  | invalidAmount
  | salesQueryFailed
  | updateFailed
  | ended (shift : Shift)
  deriving Repr, DecidableEq

/-- Handler `endShift`: requires an active shift and a valid ending-cash amount,
queries the sales whose `created_at` lies in the closed window from the
active shift's start time to now (`gte` … `lte` …), sums their
`total_amount`, and closes the shift.  `shiftNotes || null` maps the empty
string to `none`. -/
def endShift (activeShift : Option Shift) (endingCash : Option ℚ)
    (shiftNotes : String) (now : Int) (salesError updateError : Bool)
    (sales : List SaleRow) : EndShiftOutcome :=
  match activeShift with
  | none => .noActiveShift
  | some active =>
      match endingCash with
      | none => .invalidAmount
      | some endingCashAmount =>
          if endingCashAmount < 0 then .invalidAmount
          else if salesError then .salesQueryFailed
          else
            let shiftSales := sales.filter (fun s =>
              decide (active.start_time ≤ s.created_at) && decide (s.created_at ≤ now))
            let totalSales := shiftSales.foldl (fun sum s => sum + s.total_amount) 0
            if updateError then .updateFailed
            else
              .ended { active with
                end_time := some now,
                ending_cash := some endingCashAmount,
                total_sales := some totalSales,
                notes := if shiftNotes = "" then none else some shiftNotes,
                status := "closed" }

end Shifts

/-! ## Catalog reader (Inventory page)

Embeds the `filteredProducts` derivation: three predicates combined
conjunctively.  JS `hay.toLowerCase().includes(needle.toLowerCase())` is
modelled on the lowercased character lists of the two strings. -/

namespace Catalog

structure Product where
  id : String
  sku : String
  name : String
  description : Option String
  price : ℚ
  stock_quantity : Int
  category : Option String
  deriving Repr, DecidableEq

/-- Substring occurrence: does `needle` occur contiguously in the second
list? -/
def containsSub (needle : List Char) : List Char → Bool
  | [] => needle.isEmpty
  | c :: rest => needle.isPrefixOf (c :: rest) || containsSub needle rest

def lowerChars (s : String) : List Char :=
  s.toList.map Char.toLower

/-- JS `hay.toLowerCase().includes(needle.toLowerCase())`. -/
def jsIncludesLower (hay needle : String) : Bool :=
  containsSub (lowerChars needle) (lowerChars hay)

/-- The free-text predicate: the search term matched case-insensitively
against name, SKU, and (when present) category. -/
def matchesSearch (searchTerm : String) (p : Product) : Bool :=
  jsIncludesLower p.name searchTerm || jsIncludesLower p.sku searchTerm ||
    (match p.category with
     | some c => jsIncludesLower c searchTerm
     | none => false)

/-- The category predicate: `selectedCategory === null ||
product.category === selectedCategory`. -/
def matchesCategory (selectedCategory : Option String) (p : Product) : Bool :=
  match selectedCategory with
  | none => true
  | some c => p.category == some c

/-- The stock-level bucket: "low" keeps stock ≤ 10, "out" keeps stock = 0,
anything else keeps everything. -/
def matchesStock (stockFilter : String) (p : Product) : Bool :=
  if stockFilter == "low" then decide (p.stock_quantity ≤ 10)
  else if stockFilter == "out" then p.stock_quantity == 0
  else true

def filteredProducts (products : List Product) (searchTerm : String)
    (selectedCategory : Option String) (stockFilter : String) : List Product :=
  products.filter (fun p =>
    matchesSearch searchTerm p && matchesCategory selectedCategory p &&
      matchesStock stockFilter p)

end Catalog

/-! ## Sales history (Sales page)

Embeds `confirmDelete`: delete the sale's line items (when any exist), then
the sale row itself; a failing call throws and aborts the rest. -/

namespace SalesPage

structure Sale where
  id : String
  created_at : Int
  total_amount : ℚ
  payment_method : String
  status : String
  deriving Repr, DecidableEq

structure SaleItemRow where
  id : String
  sale_id : String
  product_id : String
  quantity : Int
  unit_price : ℚ
  subtotal : ℚ
  deriving Repr, DecidableEq

structure SalesDB where
  sales : List Sale
  sale_items : List SaleItemRow
  deriving Repr, DecidableEq

inductive DeleteError where
  | itemsCheckFailed
  | itemsDeleteFailed
  | saleDeleteFailed
  deriving Repr, DecidableEq

/-- Handler `confirmDelete`: select the items referencing the sale; if any exist,
delete them (`delete().eq("sale_id", id)` removes every matching row); then
delete the sale (`delete().eq("id", id)`). -/
def confirmDelete (checkFails itemsDeleteFails saleDeleteFails : Bool)
    (saleId : String) (db : SalesDB) : Except DeleteError SalesDB :=
  if checkFails then .error .itemsCheckFailed
  else
    let itemsData := db.sale_items.filter (fun item => item.sale_id == saleId)
    if itemsData.length > 0 then
      if itemsDeleteFails then .error .itemsDeleteFailed
      else
        let db1 := { db with
          sale_items := db.sale_items.filter (fun item => !(item.sale_id == saleId)) }
        if saleDeleteFails then .error .saleDeleteFailed
        else .ok { db1 with sales := db1.sales.filter (fun s => !(s.id == saleId)) }
    else
      if saleDeleteFails then .error .saleDeleteFailed
      else .ok { db with sales := db.sales.filter (fun s => !(s.id == saleId)) }

end SalesPage

end GroceryPOS

/-! ## Helper lemmas about the embedded operations -/

namespace GroceryPOS.POSPage

lemma subtotalInv_addToCart {cart : List CartItem} (h : SubtotalInv cart)
    (p : Product) : SubtotalInv (addToCart cart p) := by
  unfold addToCart
  cases hf : cart.find? (fun item => item.id == p.id) with
  | some it =>
      intro item hmem
      simp only [List.mem_map] at hmem
      obtain ⟨src, hsrc, hEq⟩ := hmem
      by_cases hid : (src.id == p.id) = true
      · subst hEq
        simp only [hid, if_true]
      · subst hEq
        simp only [hid, if_false]
        exact h src hsrc
  | none =>
      intro item hmem
      rw [List.mem_append] at hmem
      cases hmem with
      | inl hmem => exact h item hmem
      | inr hmem =>
          simp only [List.mem_singleton] at hmem
          subst hmem
          simp

lemma subtotalInv_removeFromCart {cart : List CartItem} (h : SubtotalInv cart)
    (pid : String) : SubtotalInv (removeFromCart cart pid) := by
  intro item hmem
  exact h item (List.mem_of_mem_filter hmem)

lemma subtotalInv_updateQuantity {cart : List CartItem} (h : SubtotalInv cart)
    (pid : String) (d : Int) : SubtotalInv (updateQuantity cart pid d) := by
  intro item hmem
  simp only [updateQuantity, List.mem_map] at hmem
  obtain ⟨src, hsrc, hEq⟩ := hmem
  by_cases hid : (src.id == pid) = true
  · subst hEq; simp [hid]
  · subst hEq
    simp only [hid, if_false]
    exact h src hsrc

lemma subtotalInv_applyOp {cart : List CartItem} (h : SubtotalInv cart)
    (op : CartOp) : SubtotalInv (applyOp cart op) := by
  cases op with
  | add p => exact subtotalInv_addToCart h p
  | remove pid => exact subtotalInv_removeFromCart h pid
  | setQuantity pid d => exact subtotalInv_updateQuantity h pid d

lemma subtotalInv_foldl (ops : List CartOp) :
    ∀ cart : List CartItem, SubtotalInv cart → SubtotalInv (ops.foldl applyOp cart) := by
  induction ops with
  | nil => intro cart h; simpa using h
  | cons op rest ih =>
      intro cart h
      exact ih _ (subtotalInv_applyOp h op)

lemma subtotalInv_applyOps (ops : List CartOp) : SubtotalInv (applyOps ops) :=
  subtotalInv_foldl ops [] (by intro item hmem; cases hmem)

lemma cartTotal_eq_sum (cart : List CartItem) :
    cartTotal cart = (cart.map (fun item => item.subtotal)).sum := by
  unfold cartTotal
  suffices h : ∀ a : ℚ, cart.foldl (fun sum item => sum + item.subtotal) a =
      a + (cart.map (fun item => item.subtotal)).sum by
    simpa using h 0
  induction cart with
  | nil => intro a; simp
  | cons x xs ih =>
      intro a
      simp [ih, add_assoc]

lemma sum_subtotal_eq :
    ∀ cart : List CartItem, SubtotalInv cart →
      (cart.map (fun item => item.subtotal)).sum =
        (cart.map (fun item => (item.quantity : ℚ) * item.price)).sum := by
  intro cart
  induction cart with
  | nil => intro _; simp
  | cons x xs ih =>
      intro h
      simp only [List.map_cons, List.sum_cons]
      rw [h x (List.mem_cons_self x xs),
        ih (fun item hmem => h item (List.mem_cons_of_mem x hmem))]

end GroceryPOS.POSPage

namespace GroceryPOS.Checkout

lemma stockUpdatesLoop_ok (env : Env) :
    ∀ (items : List CartItem) (db : DB) (acc : List NetOp),
      (∀ item ∈ items, env.stockUpdateFails item.id = false) →
      stockUpdatesLoop env db acc items =
        ⟨applyStockUpdates db items, acc ++ stockOps items, none⟩ := by
  intro items
  induction items with
  | nil => intro db acc _; simp [stockUpdatesLoop, applyStockUpdates, stockOps]
  | cons item rest ih =>
      intro db acc h
      have hitem : env.stockUpdateFails item.id = false :=
        h item (List.mem_cons_self item rest)
      have hrest : ∀ i ∈ rest, env.stockUpdateFails i.id = false :=
        fun i hi => h i (List.mem_cons_of_mem item hi)
      simp only [stockUpdatesLoop, hitem, Bool.false_eq_true, if_false]
      rw [ih _ _ hrest]
      simp [applyStockUpdates, stockOps]

lemma stockUpdatesLoop_fail (env : Env) :
    ∀ (pre : List CartItem) (bad : CartItem) (post : List CartItem)
      (db : DB) (acc : List NetOp),
      (∀ item ∈ pre, env.stockUpdateFails item.id = false) →
      env.stockUpdateFails bad.id = true →
      stockUpdatesLoop env db acc (pre ++ bad :: post) =
        ⟨applyStockUpdates db pre, acc ++ stockOps pre,
          some (.stockUpdateFailed bad.id)⟩ := by
  intro pre
  induction pre with
  | nil =>
      intro bad post db acc _ hbad
      simp [stockUpdatesLoop, hbad, applyStockUpdates, stockOps]
  | cons item rest ih =>
      intro bad post db acc h hbad
      have hitem : env.stockUpdateFails item.id = false :=
        h item (List.mem_cons_self item rest)
      have hrest : ∀ i ∈ rest, env.stockUpdateFails i.id = false :=
        fun i hi => h i (List.mem_cons_of_mem item hi)
      simp only [List.cons_append, stockUpdatesLoop, hitem, Bool.false_eq_true, if_false,
        List.append_eq]
      rw [ih bad post _ _ hrest hbad]
      simp [applyStockUpdates, stockOps]

lemma stockUpdatesLoop_ops_db_irrelevant (env : Env) :
    ∀ (items : List CartItem) (db db' : DB) (acc : List NetOp),
      (stockUpdatesLoop env db acc items).ops = (stockUpdatesLoop env db' acc items).ops := by
  intro items
  induction items with
  | nil => intro db db' acc; rfl
  | cons item rest ih =>
      intro db db' acc
      by_cases hfail : env.stockUpdateFails item.id = true
      · simp [stockUpdatesLoop, hfail]
      · simp only [Bool.not_eq_true] at hfail
        simp only [stockUpdatesLoop, hfail, Bool.false_eq_true, if_false]
        exact ih _ _ _

/-- The write trace of `completeSale` does not depend on the stored database
at all: in particular a stock update's written value is taken from the cart
line's snapshot, never from the stored row. -/
lemma completeSale_ops_db_irrelevant (env : Env) (cart : List CartItem)
    (db db' : DB) :
    (completeSale env cart db).ops = (completeSale env cart db').ops := by
  unfold completeSale
  by_cases hlen : cart.length = 0
  · simp [hlen]
  · simp only [hlen, if_false]
    cases env.user with
    | none => rfl
    | some uid =>
        by_cases hsf : env.saleInsertFails = true
        · simp [hsf]
        · simp only [Bool.not_eq_true] at hsf
          simp only [hsf, Bool.false_eq_true, if_false]
          by_cases hif : env.itemsInsertFails = true
          · simp [hif]
          · simp only [Bool.not_eq_true] at hif
            simp only [hif, Bool.false_eq_true, if_false]
            exact stockUpdatesLoop_ops_db_irrelevant env cart _ _ _

/-- Non-negativity of every product row is preserved by a stock write of a
non-negative value. -/
lemma dbUpdateStock_nonneg {db : DB} {pid : String} {v : Int}
    (hdb : ∀ p ∈ db.products, 0 ≤ p.stock_quantity) (hv : 0 ≤ v) :
    ∀ p ∈ (dbUpdateStock db pid v).products, 0 ≤ p.stock_quantity := by
  intro p hp
  simp only [dbUpdateStock, List.mem_map] at hp
  obtain ⟨q, hq, hEq⟩ := hp
  by_cases hid : (q.id == pid) = true
  · subst hEq; simpa [hid] using hv
  · subst hEq; simpa [hid] using hdb q hq

lemma stockUpdatesLoop_nonneg (env : Env) :
    ∀ (items : List CartItem) (db : DB) (acc : List NetOp),
      (∀ p ∈ db.products, 0 ≤ p.stock_quantity) →
      (∀ item ∈ items, 0 ≤ item.stock_quantity - item.quantity) →
      ∀ p ∈ (stockUpdatesLoop env db acc items).db.products, 0 ≤ p.stock_quantity := by
  intro items
  induction items with
  | nil => intro db acc hdb _; exact hdb
  | cons item rest ih =>
      intro db acc hdb hitems
      by_cases hfail : env.stockUpdateFails item.id = true
      · simpa [stockUpdatesLoop, hfail] using hdb
      · simp only [Bool.not_eq_true] at hfail
        simp only [stockUpdatesLoop, hfail, Bool.false_eq_true, if_false]
        exact ih _ _
          (dbUpdateStock_nonneg hdb (hitems item (List.mem_cons_self item rest)))
          (fun i hi => hitems i (List.mem_cons_of_mem item hi))

end GroceryPOS.Checkout

namespace GroceryPOS.Shifts

lemma foldl_total_amount (sales : List SaleRow) :
    sales.foldl (fun sum s => sum + s.total_amount) 0 =
      (sales.map (fun s => s.total_amount)).sum := by
  suffices h : ∀ a : ℚ, sales.foldl (fun sum s => sum + s.total_amount) a =
      a + (sales.map (fun s => s.total_amount)).sum by
    simpa using h 0
  induction sales with
  | nil => intro a; simp
  | cons x xs ih => intro a; simp [ih, add_assoc]

lemma filter_map_sum_eq_ite_sum (p : SaleRow → Bool) (sales : List SaleRow) :
    ((sales.filter p).map (fun s => s.total_amount)).sum =
      (sales.map (fun s => if p s then s.total_amount else 0)).sum := by
  induction sales with
  | nil => rfl
  | cons x xs ih =>
      by_cases hx : p x = true
      · simp [List.filter_cons, hx, ih]
      · simp only [Bool.not_eq_true] at hx
        simp [List.filter_cons, hx, ih]

end GroceryPOS.Shifts

namespace GroceryPOS.Catalog

lemma containsSub_iff_occurs (needle hay : List Char) :
    containsSub needle hay = true ↔ needle <:+: hay := by
  induction hay with
  | nil => simp [containsSub, List.isEmpty_iff]
  | cons c rest ih =>
      simp [containsSub, ih, List.infix_cons_iff, List.isPrefixOf_iff_prefix]

lemma matchesSearch_iff (t : String) (p : Product) :
    matchesSearch t p = true ↔
      (lowerChars t <:+: lowerChars p.name ∨ lowerChars t <:+: lowerChars p.sku ∨
        ∃ c, p.category = some c ∧ lowerChars t <:+: lowerChars c) := by
  unfold matchesSearch jsIncludesLower
  cases hcat : p.category with
  | none => simp [containsSub_iff_occurs, hcat]
  | some c => simp [containsSub_iff_occurs, hcat, or_assoc]

lemma matchesCategory_iff (sel : Option String) (p : Product) :
    matchesCategory sel p = true ↔ (sel = none ∨ p.category = sel) := by
  cases sel with
  | none => simp [matchesCategory]
  | some c => simp [matchesCategory]

lemma matchesStock_iff (f : String) (p : Product) :
    matchesStock f p = true ↔
      ((f = "low" ∧ p.stock_quantity ≤ 10) ∨
       (f ≠ "low" ∧ f = "out" ∧ p.stock_quantity = 0) ∨
       (f ≠ "low" ∧ f ≠ "out")) := by
  unfold matchesStock
  by_cases hl : f = "low"
  · subst hl
    have h1 : ¬(("low" : String) = "out") := by decide
    simp [h1]
  · by_cases ho : f = "out"
    · subst ho
      have h1 : ¬(("out" : String) = "low") := by decide
      simp [h1]
    · simp [hl, ho]

end GroceryPOS.Catalog


/-- C3: for every sequence of add / remove / setQuantity operations applied to
an initially empty cart, `total()` equals the sum of quantity × unit price
over the remaining entries (each entry's stored subtotal always equals its
quantity times its unit price). -/
theorem cart_total_is_sum_of_qty_times_price (ops : List GroceryPOS.POSPage.CartOp) :
    GroceryPOS.POSPage.cartTotal (GroceryPOS.POSPage.applyOps ops) =
      ((GroceryPOS.POSPage.applyOps ops).map
        (fun item => (item.quantity : ℚ) * item.price)).sum := by
  rw [GroceryPOS.POSPage.cartTotal_eq_sum]
  exact GroceryPOS.POSPage.sum_subtotal_eq _ (GroceryPOS.POSPage.subtotalInv_applyOps ops)

section CheckoutClaims

open GroceryPOS.Checkout

/-- C1: a successful checkout of a cart holding product A (quantity 2, unit
price 10, snapshot stock sA) and product B (quantity 1, unit price 5,
snapshot stock sB) appends exactly one Sale with total_amount 25 and status
"completed", appends two SaleItems referencing that Sale's identifier with
subtotals 20 and 5, and overwrites A's stock with sA − 2 and B's with
sB − 1, issuing the writes in the order: Sale insert, SaleItem insert,
per-product stock updates. -/
theorem checkout_cart_AB_commit
    (env : Env) (uid nmA skA ctA nmB skB ctB : String)
    (sA sB : Int) (db : DB)
    (hu : env.user = some uid)
    (hsf : env.saleInsertFails = false)
    (hif : env.itemsInsertFails = false)
    (hA : env.stockUpdateFails "A" = false)
    (hB : env.stockUpdateFails "B" = false)
    (hprod : db.products = [⟨"A", sA⟩, ⟨"B", sB⟩]) :
    completeSale env
        [⟨"A", nmA, 10, skA, sA, ctA, 2, 20⟩, ⟨"B", nmB, 5, skB, sB, ctB, 1, 5⟩] db =
      ⟨⟨[⟨"A", sA - 2⟩, ⟨"B", sB - 1⟩],
        db.sales ++ [⟨env.newSaleId, uid, 25, "cash", "completed"⟩],
        db.sale_items ++
          [⟨env.newSaleId, "A", 2, 10, 20⟩, ⟨env.newSaleId, "B", 1, 5, 5⟩]⟩,
       [.insertSale ⟨env.newSaleId, uid, 25, "cash", "completed"⟩,
        .insertSaleItems [⟨env.newSaleId, "A", 2, 10, 20⟩, ⟨env.newSaleId, "B", 1, 5, 5⟩],
        .updateStock "A" (sA - 2), .updateStock "B" (sB - 1)],
       none⟩ := by
  have hok : ∀ item ∈ ([⟨"A", nmA, 10, skA, sA, ctA, 2, 20⟩,
      ⟨"B", nmB, 5, skB, sB, ctB, 1, 5⟩] : List CartItem),
      env.stockUpdateFails item.id = false := by
    intro item hmem
    simp only [List.mem_cons, List.not_mem_nil, or_false] at hmem
    rcases hmem with rfl | rfl
    · exact hA
    · exact hB
  unfold completeSale
  rw [hu]
  simp only [List.length_cons, List.length_nil, Nat.succ_ne_zero, if_false,
    hsf, hif, Bool.false_eq_true]
  rw [stockUpdatesLoop_ok env _ _ _ hok]
  simp only [applyStockUpdates, stockOps, checkoutSaleItems, checkoutTotal,
    List.foldl_cons, List.foldl_nil, List.map_cons, List.map_nil,
    dbUpdateStock, hprod]
  have hAB : ("A" : String) ≠ "B" := by decide
  have hBA : ("B" : String) ≠ "A" := by decide
  norm_num [hAB, hBA]

/-- Witness for C1 at a concrete environment and database. -/
theorem checkout_cart_AB_commit_witness :
    (⟨[⟨"A", 9⟩, ⟨"B", 4⟩], [], []⟩ : DB).products = [⟨"A", 9⟩, ⟨"B", 4⟩] ∧
    completeSale ⟨some "u", "s", false, false, fun _ => false⟩
        [⟨"A", "apel", 10, "SKU-A", 9, "buah", 2, 20⟩,
         ⟨"B", "beras", 5, "SKU-B", 4, "pokok", 1, 5⟩]
        ⟨[⟨"A", 9⟩, ⟨"B", 4⟩], [], []⟩ =
      ⟨⟨[⟨"A", 9 - 2⟩, ⟨"B", 4 - 1⟩],
        [] ++ [⟨"s", "u", 25, "cash", "completed"⟩],
        [] ++ [⟨"s", "A", 2, 10, 20⟩, ⟨"s", "B", 1, 5, 5⟩]⟩,
       [.insertSale ⟨"s", "u", 25, "cash", "completed"⟩,
        .insertSaleItems [⟨"s", "A", 2, 10, 20⟩, ⟨"s", "B", 1, 5, 5⟩],
        .updateStock "A" (9 - 2), .updateStock "B" (4 - 1)],
       none⟩ :=
  ⟨rfl, checkout_cart_AB_commit ⟨some "u", "s", false, false, fun _ => false⟩
    "u" "apel" "SKU-A" "buah" "beras" "SKU-B" "pokok" 9 4
    ⟨[⟨"A", 9⟩, ⟨"B", 4⟩], [], []⟩ rfl rfl rfl rfl rfl rfl⟩

/-- C2: when a checkout step fails, the error is surfaced, the remaining
steps are skipped, and completed steps are not rolled back.  Stated for a
non-empty cart `pre ++ bad :: post`: (1) if the Sale insert fails nothing is
written; (2) if the SaleItem insert fails the Sale stays persisted; (3) if
the stock update of line `bad` fails (earlier lines succeeding), the Sale,
the SaleItems and the earlier stock updates all stay persisted and the later
updates never run. -/
theorem checkout_failure_no_rollback
    (env : Env) (uid : String) (pre post : List CartItem) (bad : CartItem)
    (db : DB)
    (hu : env.user = some uid) :
    (env.saleInsertFails = true →
      completeSale env (pre ++ bad :: post) db = ⟨db, [], some .saleInsertFailed⟩) ∧
    (env.saleInsertFails = false → env.itemsInsertFails = true →
      completeSale env (pre ++ bad :: post) db =
        ⟨{ db with sales := db.sales ++
            [⟨env.newSaleId, uid, checkoutTotal (pre ++ bad :: post), "cash", "completed"⟩] },
         [.insertSale ⟨env.newSaleId, uid, checkoutTotal (pre ++ bad :: post), "cash", "completed"⟩],
         some .itemsInsertFailed⟩) ∧
    (env.saleInsertFails = false → env.itemsInsertFails = false →
      (∀ item ∈ pre, env.stockUpdateFails item.id = false) →
      env.stockUpdateFails bad.id = true →
      completeSale env (pre ++ bad :: post) db =
        ⟨applyStockUpdates
            { db with
              sales := db.sales ++
                [⟨env.newSaleId, uid, checkoutTotal (pre ++ bad :: post), "cash", "completed"⟩],
              sale_items := db.sale_items ++
                checkoutSaleItems env.newSaleId (pre ++ bad :: post) } pre,
         [.insertSale ⟨env.newSaleId, uid, checkoutTotal (pre ++ bad :: post), "cash", "completed"⟩,
          .insertSaleItems (checkoutSaleItems env.newSaleId (pre ++ bad :: post))] ++
            stockOps pre,
         some (.stockUpdateFailed bad.id)⟩) := by
  have hlen : ¬((pre ++ bad :: post).length = 0) := by simp
  refine ⟨?_, ?_, ?_⟩
  · intro h1
    unfold completeSale
    rw [hu, if_neg hlen]
    simp [h1]
  · intro h1 h2
    unfold completeSale
    rw [hu, if_neg hlen]
    simp [h1, h2]
  · intro h1 h2 hpre hbad
    unfold completeSale
    rw [hu, if_neg hlen]
    simp only [h1, h2, Bool.false_eq_true, if_false]
    rw [stockUpdatesLoop_fail env pre bad post _ _ hpre hbad]

/-- Witness for C2: the stock update of line B fails after A's line
succeeded; the Sale, both SaleItems and A's stock write remain. -/
theorem checkout_failure_no_rollback_witness :
    (⟨some "u", "s", false, false, fun pid => pid == "B"⟩ : Env).user = some "u" ∧
    completeSale ⟨some "u", "s", false, false, fun pid => pid == "B"⟩
        ([⟨"A", "apel", 10, "SKU-A", 9, "buah", 2, 20⟩] ++
          ⟨"B", "beras", 5, "SKU-B", 4, "pokok", 1, 5⟩ :: [])
        ⟨[⟨"A", 9⟩, ⟨"B", 4⟩], [], []⟩ =
      ⟨applyStockUpdates
          { (⟨[⟨"A", 9⟩, ⟨"B", 4⟩], [], []⟩ : DB) with
            sales := [] ++
              [⟨"s", "u",
                checkoutTotal ([⟨"A", "apel", 10, "SKU-A", 9, "buah", 2, 20⟩] ++
                  ⟨"B", "beras", 5, "SKU-B", 4, "pokok", 1, 5⟩ :: []),
                "cash", "completed"⟩],
            sale_items := [] ++
              checkoutSaleItems "s" ([⟨"A", "apel", 10, "SKU-A", 9, "buah", 2, 20⟩] ++
                ⟨"B", "beras", 5, "SKU-B", 4, "pokok", 1, 5⟩ :: []) }
          [⟨"A", "apel", 10, "SKU-A", 9, "buah", 2, 20⟩],
       [.insertSale ⟨"s", "u",
            checkoutTotal ([⟨"A", "apel", 10, "SKU-A", 9, "buah", 2, 20⟩] ++
              ⟨"B", "beras", 5, "SKU-B", 4, "pokok", 1, 5⟩ :: []),
            "cash", "completed"⟩,
        .insertSaleItems (checkoutSaleItems "s"
            ([⟨"A", "apel", 10, "SKU-A", 9, "buah", 2, 20⟩] ++
              ⟨"B", "beras", 5, "SKU-B", 4, "pokok", 1, 5⟩ :: []))] ++
          stockOps [⟨"A", "apel", 10, "SKU-A", 9, "buah", 2, 20⟩],
       some (.stockUpdateFailed "B")⟩ :=
  ⟨rfl,
    (checkout_failure_no_rollback
        ⟨some "u", "s", false, false, fun pid => pid == "B"⟩ "u"
        [⟨"A", "apel", 10, "SKU-A", 9, "buah", 2, 20⟩] []
        ⟨"B", "beras", 5, "SKU-B", 4, "pokok", 1, 5⟩
        ⟨[⟨"A", 9⟩, ⟨"B", 4⟩], [], []⟩ rfl).right.right
      rfl rfl (by decide) rfl⟩

/-- C10: each stock write of a successful checkout is
`snapshot_stock − quantity`, computed from the cart line's captured stock
field, and the write trace is identical for every stored database — so a
stored-stock change between fetch and commit never affects the written
value. -/
theorem checkout_stock_written_from_snapshot
    (env : Env) (uid : String) (cart : List CartItem) (db : DB)
    (hu : env.user = some uid)
    (hsf : env.saleInsertFails = false)
    (hif : env.itemsInsertFails = false)
    (hok : ∀ item ∈ cart, env.stockUpdateFails item.id = false)
    (hne : ¬(cart.length = 0)) :
    (completeSale env cart db).ops =
      [.insertSale ⟨env.newSaleId, uid, checkoutTotal cart, "cash", "completed"⟩,
       .insertSaleItems (checkoutSaleItems env.newSaleId cart)] ++
        cart.map (fun item =>
          .updateStock item.id (item.stock_quantity - item.quantity)) ∧
    ∀ db' : DB, (completeSale env cart db').ops = (completeSale env cart db).ops := by
  constructor
  · unfold completeSale
    rw [hu, if_neg hne]
    simp only [hsf, hif, Bool.false_eq_true, if_false]
    rw [stockUpdatesLoop_ok env _ _ _ hok]
    rfl
  · intro db'
    exact completeSale_ops_db_irrelevant env cart db' db

/-- Witness for C10: the stored stock of product A is 100 while the cart
snapshot is 5; the committed write is 5 − 2 = 3, for either database. -/
theorem checkout_stock_written_from_snapshot_witness :
    (⟨some "u", "s", false, false, fun _ => false⟩ : Env).user = some "u" ∧
    ((completeSale ⟨some "u", "s", false, false, fun _ => false⟩
        [⟨"A", "apel", 10, "SKU-A", 5, "buah", 2, 20⟩]
        ⟨[⟨"A", 100⟩], [], []⟩).ops =
      [.insertSale ⟨"s", "u",
          checkoutTotal [⟨"A", "apel", 10, "SKU-A", 5, "buah", 2, 20⟩],
          "cash", "completed"⟩,
       .insertSaleItems (checkoutSaleItems "s"
          [⟨"A", "apel", 10, "SKU-A", 5, "buah", 2, 20⟩])] ++
        ([⟨"A", "apel", 10, "SKU-A", 5, "buah", 2, 20⟩] : List CartItem).map
          (fun item => .updateStock item.id (item.stock_quantity - item.quantity)) ∧
    ∀ db' : DB,
      (completeSale ⟨some "u", "s", false, false, fun _ => false⟩
          [⟨"A", "apel", 10, "SKU-A", 5, "buah", 2, 20⟩] db').ops =
        (completeSale ⟨some "u", "s", false, false, fun _ => false⟩
          [⟨"A", "apel", 10, "SKU-A", 5, "buah", 2, 20⟩]
          ⟨[⟨"A", 100⟩], [], []⟩).ops) :=
  ⟨rfl, checkout_stock_written_from_snapshot
    ⟨some "u", "s", false, false, fun _ => false⟩ "u"
    [⟨"A", "apel", 10, "SKU-A", 5, "buah", 2, 20⟩]
    ⟨[⟨"A", 100⟩], [], []⟩ rfl rfl rfl (by decide) (by decide)⟩

/-- Counterexample to C4: a checkout of quantity 3 against snapshot stock 2
succeeds and writes stock −1, a negative stock quantity. -/
theorem checkout_writes_negative_stock_cex :
    (completeSale ⟨some "u", "s", false, false, fun _ => false⟩
        [⟨"A", "apel", 10, "SKU-A", 2, "buah", 3, 30⟩]
        ⟨[⟨"A", 2⟩], [], []⟩).error = none ∧
    (completeSale ⟨some "u", "s", false, false, fun _ => false⟩
        [⟨"A", "apel", 10, "SKU-A", 2, "buah", 3, 30⟩]
        ⟨[⟨"A", 2⟩], [], []⟩).db.products = [⟨"A", -1⟩] :=
  ⟨rfl, rfl⟩

/-- C4 as amended: no operation of the checkout commit clamps stock at zero;
the committed stocks stay non-negative exactly under the side conditions
that every stored stock is non-negative and no cart line's quantity exceeds
its snapshot stock.  Under those conditions every product row remains
non-negative, whatever the environment (including partial failures). -/
theorem checkout_nonneg_stock_when_quantity_bounded
    (env : Env) (cart : List CartItem) (db : DB)
    (hdb : ∀ p ∈ db.products, 0 ≤ p.stock_quantity)
    (hcart : ∀ item ∈ cart, item.quantity ≤ item.stock_quantity) :
    ∀ p ∈ (completeSale env cart db).db.products, 0 ≤ p.stock_quantity := by
  have hsub : ∀ item ∈ cart, 0 ≤ item.stock_quantity - item.quantity :=
    fun item hmem => sub_nonneg.mpr (hcart item hmem)
  unfold completeSale
  by_cases hlen : cart.length = 0
  · simpa [hlen] using hdb
  · rw [if_neg hlen]
    cases henv : env.user with
    | none => simpa using hdb
    | some uid =>
        by_cases hsf : env.saleInsertFails = true
        · simpa [hsf] using hdb
        · simp only [Bool.not_eq_true] at hsf
          simp only [hsf, Bool.false_eq_true, if_false]
          by_cases hif : env.itemsInsertFails = true
          · simpa [hif] using hdb
          · simp only [Bool.not_eq_true] at hif
            simp only [hif, Bool.false_eq_true, if_false]
            exact stockUpdatesLoop_nonneg env cart _ _ hdb hsub

/-- Witness for the amended C4. -/
theorem checkout_nonneg_stock_when_quantity_bounded_witness :
    (∀ item ∈ ([⟨"A", "apel", 10, "SKU-A", 5, "buah", 2, 20⟩] : List CartItem),
      item.quantity ≤ item.stock_quantity) ∧
    ∀ p ∈ (completeSale ⟨some "u", "s", false, false, fun _ => false⟩
        [⟨"A", "apel", 10, "SKU-A", 5, "buah", 2, 20⟩]
        ⟨[⟨"A", 5⟩], [], []⟩).db.products, 0 ≤ p.stock_quantity :=
  ⟨by decide,
    checkout_nonneg_stock_when_quantity_bounded
      ⟨some "u", "s", false, false, fun _ => false⟩
      [⟨"A", "apel", 10, "SKU-A", 5, "buah", 2, 20⟩]
      ⟨[⟨"A", 5⟩], [], []⟩ (by decide) (by decide)⟩

/-- Counterexample to C6: the empty-cart case is guarded inside
`completeSale` itself — invoked directly with an empty cart it issues no
write and even skips the user lookup (no error with no user), whereas the
spec's unguarded step sequence would insert a Sale (a network write) on an
empty cart. -/
theorem checkout_empty_cart_internal_guard_cex :
    (completeSale ⟨some "u", "s", false, false, fun _ => false⟩ [] ⟨[], [], []⟩).ops = [] ∧
    (completeSale ⟨none, "s", false, false, fun _ => false⟩ [] ⟨[], [], []⟩).error = none ∧
    (completeSaleNoGuard ⟨some "u", "s", false, false, fun _ => false⟩ [] ⟨[], [], []⟩).ops =
      [.insertSale ⟨"s", "u", checkoutTotal [], "cash", "completed"⟩,
       .insertSaleItems []] :=
  ⟨rfl, rfl, rfl⟩

/-- C6 as amended: invoking the checkout commit with an empty cart is a
no-op performing no network writes, enforced by the guard at the top of the
commit operation itself (in addition to the caller disabling the action):
it returns with the database unchanged, an empty write trace and no error,
before any step — even the user lookup — runs. -/
theorem checkout_empty_cart_noop (env : Env) (db : DB) :
    completeSale env [] db = ⟨db, [], none⟩ := rfl

end CheckoutClaims

section ShiftClaims

open GroceryPOS.Shifts

/-- C5: ending a shift computes total_sales as the sum of total_amount over
exactly the sales whose timestamp lies in the closed interval from the
active shift's start time to now, inclusive on both bounds; a sale strictly
outside the window contributes nothing (its contribution is 0). -/
theorem end_shift_sums_sales_in_closed_window
    (active : Shift) (c : ℚ) (notes : String) (now : Int) (sales : List SaleRow)
    (hc : ¬(c < 0)) :
    endShift (some active) (some c) notes now false false sales =
      .ended { active with
        end_time := some now,
        ending_cash := some c,
        total_sales := some ((sales.filter (fun s =>
            decide (active.start_time ≤ s.created_at) && decide (s.created_at ≤ now))).map
          (fun s => s.total_amount)).sum,
        notes := if notes = "" then none else some notes,
        status := "closed" } ∧
    ((sales.filter (fun s =>
        decide (active.start_time ≤ s.created_at) && decide (s.created_at ≤ now))).map
      (fun s => s.total_amount)).sum =
      (sales.map (fun s =>
        if active.start_time ≤ s.created_at ∧ s.created_at ≤ now
        then s.total_amount else 0)).sum := by
  constructor
  · simp only [endShift]
    rw [if_neg hc]
    simp only [Bool.false_eq_true, if_false]
    rw [foldl_total_amount]
  · rw [filter_map_sum_eq_ite_sum]
    simp only [Bool.and_eq_true, decide_eq_true_eq]

/-- Witness for C5: shift start 10, end 20; the sales stamped 10 and 20
(both boundaries) are included, those stamped 9 and 21 are excluded. -/
theorem end_shift_sums_sales_in_closed_window_witness :
    ¬((50 : ℚ) < 0) ∧
    (endShift (some ⟨"sh1", "u", 10, none, 100, none, none, "open", none⟩)
        (some 50) "" 20 false false [⟨10, 7⟩, ⟨20, 9⟩, ⟨9, 3⟩, ⟨21, 4⟩] =
      .ended { (⟨"sh1", "u", 10, none, 100, none, none, "open", none⟩ : Shift) with
        end_time := some 20,
        ending_cash := some 50,
        total_sales := some ((([⟨10, 7⟩, ⟨20, 9⟩, ⟨9, 3⟩, ⟨21, 4⟩] : List SaleRow).filter
            (fun s => decide ((10 : Int) ≤ s.created_at) && decide (s.created_at ≤ 20))).map
          (fun s => s.total_amount)).sum,
        notes := if "" = "" then none else some "",
        status := "closed" } ∧
    ((([⟨10, 7⟩, ⟨20, 9⟩, ⟨9, 3⟩, ⟨21, 4⟩] : List SaleRow).filter
        (fun s => decide ((10 : Int) ≤ s.created_at) && decide (s.created_at ≤ 20))).map
      (fun s => s.total_amount)).sum =
      (([⟨10, 7⟩, ⟨20, 9⟩, ⟨9, 3⟩, ⟨21, 4⟩] : List SaleRow).map (fun s =>
        if (10 : Int) ≤ s.created_at ∧ s.created_at ≤ 20
        then s.total_amount else 0)).sum) :=
  ⟨by decide,
    end_shift_sums_sales_in_closed_window
      ⟨"sh1", "u", 10, none, 100, none, none, "open", none⟩
      50 "" 20 [⟨10, 7⟩, ⟨20, 9⟩, ⟨9, 3⟩, ⟨21, 4⟩] (by decide)⟩

/-- C7: starting a shift rejects a NaN or negative starting-cash amount with
no Shift inserted and the shifts table unchanged; on a valid amount with a
logged-in user it appends exactly one Shift with status "open" stamped with
the current time. -/
theorem start_shift_validation_and_creation
    (user : Option String) (now : Int) (newId : String) (insertFails : Bool)
    (shifts : List Shift) :
    (startShift none user now newId insertFails shifts = (.invalidAmount, shifts)) ∧
    (∀ c : ℚ, c < 0 →
      startShift (some c) user now newId insertFails shifts = (.invalidAmount, shifts)) ∧
    (∀ c : ℚ, ¬(c < 0) → ∀ uid : String, user = some uid → insertFails = false →
      startShift (some c) user now newId insertFails shifts =
        (.started ⟨newId, uid, now, none, c, none, none, "open", none⟩,
          shifts ++ [⟨newId, uid, now, none, c, none, none, "open", none⟩])) := by
  refine ⟨rfl, ?_, ?_⟩
  · intro c hc
    simp [startShift, hc]
  · intro c hc uid huser hins
    rw [huser] at *
    simp [startShift, hc, hins]

/-- Witness for C7: starting cash −5 is rejected with no row inserted;
starting cash 100 opens a shift. -/
theorem start_shift_validation_and_creation_witness :
    ((-5 : ℚ) < 0) ∧
    startShift (some (-5)) (some "u") 5 "sh1" false [] = (.invalidAmount, []) ∧
    ¬((100 : ℚ) < 0) ∧
    startShift (some 100) (some "u") 5 "sh1" false [] =
      (.started ⟨"sh1", "u", 5, none, 100, none, none, "open", none⟩,
        [] ++ [⟨"sh1", "u", 5, none, 100, none, none, "open", none⟩]) :=
  ⟨by decide,
    (start_shift_validation_and_creation (some "u") 5 "sh1" false []).right.left
      (-5) (by decide),
    by decide,
    (start_shift_validation_and_creation (some "u") 5 "sh1" false []).right.right
      100 (by decide) "u" rfl rfl⟩

end ShiftClaims

section CatalogClaims

open GroceryPOS.Catalog

/-- Counterexample to C8: a product whose category (but neither name nor
SKU) contains the search text case-insensitively still appears in the
filtered result — the free-text predicate is not limited to name and SKU. -/
theorem catalog_search_matches_category_cex :
    filteredProducts
        [⟨"p1", "XYZ", "abc", none, 10, 5, some "Food"⟩] "foo" none "all" =
      [⟨"p1", "XYZ", "abc", none, 10, 5, some "Food"⟩] ∧
    jsIncludesLower "abc" "foo" = false ∧
    jsIncludesLower "XYZ" "foo" = false :=
  ⟨rfl, rfl, rfl⟩

/-- C8 as amended: the catalog filter is the conjunction of three
independent predicates — a free-text predicate matching a product iff the
search text is a case-insensitive substring of its name, of its SKU, or of
its category (when present); a category-equality predicate (pass-all when no
category is selected); and the stock bucket ("low" passes stock ≤ 10, "out"
passes exactly stock = 0, anything else passes everything). -/
theorem catalog_filter_three_predicates
    (products : List Product) (searchTerm : String)
    (selectedCategory : Option String) (stockFilter : String) (p : Product) :
    p ∈ filteredProducts products searchTerm selectedCategory stockFilter ↔
      p ∈ products ∧
      (lowerChars searchTerm <:+: lowerChars p.name ∨
       lowerChars searchTerm <:+: lowerChars p.sku ∨
       ∃ c, p.category = some c ∧ lowerChars searchTerm <:+: lowerChars c) ∧
      (selectedCategory = none ∨ p.category = selectedCategory) ∧
      ((stockFilter = "low" ∧ p.stock_quantity ≤ 10) ∨
       (stockFilter ≠ "low" ∧ stockFilter = "out" ∧ p.stock_quantity = 0) ∨
       (stockFilter ≠ "low" ∧ stockFilter ≠ "out")) := by
  unfold filteredProducts
  rw [List.mem_filter]
  simp only [Bool.and_eq_true]
  rw [matchesSearch_iff, matchesCategory_iff, matchesStock_iff]
  tauto

/-- Witness for the amended C8 at a concrete product and filter state. -/
theorem catalog_filter_three_predicates_witness :
    (⟨"p1", "XYZ", "abc", none, 10, 5, some "Food"⟩ : Product) ∈
        filteredProducts [⟨"p1", "XYZ", "abc", none, 10, 5, some "Food"⟩]
          "foo" none "all" ↔
      (⟨"p1", "XYZ", "abc", none, 10, 5, some "Food"⟩ : Product) ∈
          [(⟨"p1", "XYZ", "abc", none, 10, 5, some "Food"⟩ : Product)] ∧
      (lowerChars "foo" <:+:
          lowerChars (⟨"p1", "XYZ", "abc", none, 10, 5, some "Food"⟩ : Product).name ∨
       lowerChars "foo" <:+:
          lowerChars (⟨"p1", "XYZ", "abc", none, 10, 5, some "Food"⟩ : Product).sku ∨
       ∃ c, (⟨"p1", "XYZ", "abc", none, 10, 5, some "Food"⟩ : Product).category = some c ∧
          lowerChars "foo" <:+: lowerChars c) ∧
      ((none : Option String) = none ∨
        (⟨"p1", "XYZ", "abc", none, 10, 5, some "Food"⟩ : Product).category = none) ∧
      ((("all" : String) = "low" ∧
          (⟨"p1", "XYZ", "abc", none, 10, 5, some "Food"⟩ : Product).stock_quantity ≤ 10) ∨
       (("all" : String) ≠ "low" ∧ ("all" : String) = "out" ∧
          (⟨"p1", "XYZ", "abc", none, 10, 5, some "Food"⟩ : Product).stock_quantity = 0) ∨
       (("all" : String) ≠ "low" ∧ ("all" : String) ≠ "out")) :=
  catalog_filter_three_predicates
    [⟨"p1", "XYZ", "abc", none, 10, 5, some "Food"⟩] "foo" none "all"
    ⟨"p1", "XYZ", "abc", none, 10, 5, some "Food"⟩

end CatalogClaims

section SalesClaims

open GroceryPOS.SalesPage

/-- C9: after a successful delete of a sale, no SaleItem referencing that
sale's identifier remains in the database (and the sale row itself is
gone). -/
theorem delete_sale_leaves_no_orphan_items
    (checkFails itemsDeleteFails saleDeleteFails : Bool) (saleId : String)
    (db db' : SalesDB)
    (hok : confirmDelete checkFails itemsDeleteFails saleDeleteFails saleId db = .ok db') :
    (∀ item ∈ db'.sale_items, item.sale_id ≠ saleId) ∧
    (∀ s ∈ db'.sales, s.id ≠ saleId) := by
  unfold confirmDelete at hok
  by_cases hcf : checkFails = true
  · rw [if_pos hcf] at hok; cases hok
  · simp only [Bool.not_eq_true] at hcf
    rw [hcf] at hok
    simp only [Bool.false_eq_true, if_false] at hok
    by_cases hlen :
        (db.sale_items.filter (fun item => item.sale_id == saleId)).length > 0
    · rw [if_pos hlen] at hok
      by_cases hidf : itemsDeleteFails = true
      · rw [if_pos hidf] at hok; cases hok
      · simp only [Bool.not_eq_true] at hidf
        rw [hidf] at hok
        simp only [Bool.false_eq_true, if_false] at hok
        by_cases hsdf : saleDeleteFails = true
        · rw [if_pos hsdf] at hok; cases hok
        · simp only [Bool.not_eq_true] at hsdf
          rw [hsdf] at hok
          simp only [Bool.false_eq_true, if_false, Except.ok.injEq] at hok
          subst hok
          constructor
          · intro item hmem
            have := List.of_mem_filter hmem
            simpa using this
          · intro s hmem
            have := List.of_mem_filter hmem
            simpa using this
    · rw [if_neg hlen] at hok
      by_cases hsdf : saleDeleteFails = true
      · rw [if_pos hsdf] at hok; cases hok
      · simp only [Bool.not_eq_true] at hsdf
        rw [hsdf] at hok
        simp only [Bool.false_eq_true, if_false, Except.ok.injEq] at hok
        subst hok
        constructor
        · intro item hmem
          have hnil :
              db.sale_items.filter (fun item => item.sale_id == saleId) = [] := by
            cases h : db.sale_items.filter (fun item => item.sale_id == saleId) with
            | nil => rfl
            | cons a as => rw [h] at hlen; simp at hlen
          have := List.filter_eq_nil_iff.mp hnil item hmem
          simpa using this
        · intro s hmem
          have := List.of_mem_filter hmem
          simpa using this

/-- Witness for C9: deleting sale "s1" removes its item rows, leaving only
the rows of sale "s2". -/
theorem delete_sale_leaves_no_orphan_items_witness :
    confirmDelete false false false "s1"
        ⟨[⟨"s1", 1, 25, "cash", "completed"⟩, ⟨"s2", 2, 9, "cash", "completed"⟩],
         [⟨"i1", "s1", "A", 2, 10, 20⟩, ⟨"i2", "s2", "B", 1, 9, 9⟩]⟩ =
      .ok ⟨[⟨"s2", 2, 9, "cash", "completed"⟩], [⟨"i2", "s2", "B", 1, 9, 9⟩]⟩ ∧
    ((∀ item ∈ (⟨[⟨"s2", 2, 9, "cash", "completed"⟩],
        [⟨"i2", "s2", "B", 1, 9, 9⟩]⟩ : SalesDB).sale_items, item.sale_id ≠ "s1") ∧
     (∀ s ∈ (⟨[⟨"s2", 2, 9, "cash", "completed"⟩],
        [⟨"i2", "s2", "B", 1, 9, 9⟩]⟩ : SalesDB).sales, s.id ≠ "s1")) :=
  ⟨rfl,
    delete_sale_leaves_no_orphan_items false false false "s1"
      ⟨[⟨"s1", 1, 25, "cash", "completed"⟩, ⟨"s2", 2, 9, "cash", "completed"⟩],
       [⟨"i1", "s1", "A", 2, 10, 20⟩, ⟨"i2", "s2", "B", 1, 9, 9⟩]⟩
      ⟨[⟨"s2", 2, 9, "cash", "completed"⟩], [⟨"i2", "s2", "B", 1, 9, 9⟩]⟩ rfl⟩

end SalesClaims
